import Mathlib

set_option maxHeartbeats 1000000

/-!
Shallow embedding of the VulkanSandbox renderer core and proofs about it.

Sources embedded below:
- VulkanMemory.cpp / VulkanBuffer.cpp (FindMemoryType)
- VulkanSwapChain.cpp (ChoosePresentMode, ChooseNumberOfImages)
- VulkanCommandBuffer.cpp (Begin / End state machine, release configuration)
- Renderer.cpp (CreateSyncObjects, UpdateUniformData, DrawFrame, RecreateSwapChain, LoadModel)

Machine integers are modelled as Nat with explicit wrap-around where uint32
overflow matters. VkResult values are modelled as Int using the numeric codes
of vulkan_core.h. Fatal paths (LOG_ERROR followed by exit) are modelled as
Option.none or as an explicit trace flag.
-/

/-! Vulkan enumeration constants (values from vulkan_core.h). -/

def VK_SUCCESS : Int := 0

def VK_NOT_READY : Int := 1

def VK_SUBOPTIMAL_KHR : Int := 1000001003

def VK_ERROR_OUT_OF_DATE_KHR : Int := -1000001004

def VK_PRESENT_MODE_IMMEDIATE_KHR : Int := 0

def VK_PRESENT_MODE_MAILBOX_KHR : Int := 1

def VK_PRESENT_MODE_FIFO_KHR : Int := 2

def VK_PRESENT_MODE_FIFO_RELAXED_KHR : Int := 3

def VK_FENCE_CREATE_SIGNALED_BIT : Nat := 1

/-! Memory-type selection.

VulkanMemory::FindMemoryType (VulkanMemory.cpp lines 58 to 88) and
VulkanBuffer::FindMemoryType (VulkanBuffer.cpp lines 83 to 120) implement the
same loop; this is the shared embedding. The physical-device memory-type table
is the list of propertyFlags bitmasks of memoryTypes[0 ..], so
memoryTypeCount = memory_types.length. The loop body tests
(type_filter and (1 shl i)) as Nat.testBit, and
(memoryTypes[i].propertyFlags and required) == required as a Nat bitmask test.
The fatal no-match path (LOG_ERROR then exit) is modelled as none.
-/

def FindMemoryTypeAux (memory_types : List Nat) (type_filter mem_properties i : Nat) :
    Option Nat :=
  match memory_types with
  | [] => none
  | p :: rest =>
    if type_filter.testBit i ∧ (p &&& mem_properties) = mem_properties then
      some i
    else
      FindMemoryTypeAux rest type_filter mem_properties (i + 1)

def VulkanMemory.FindMemoryType (memory_types : List Nat) (type_filter mem_properties : Nat) :
    Option Nat :=
  FindMemoryTypeAux memory_types type_filter mem_properties 0

/-- A memory-type index satisfies the request iff its bit is set in the type
filter and its propertyFlags are a superset of the required flags. -/
def IsSuitableMemoryType (memory_types : List Nat) (type_filter mem_properties i : Nat) :
    Prop :=
  i < memory_types.length ∧ type_filter.testBit i ∧
    (memory_types.getD i 0) &&& mem_properties = mem_properties

instance (memory_types : List Nat) (type_filter mem_properties i : Nat) :
    Decidable (IsSuitableMemoryType memory_types type_filter mem_properties i) := by
  unfold IsSuitableMemoryType; infer_instance

/-! Swapchain negotiation (VulkanSwapChain.cpp). -/

/-- Embeds VulkanSwapchain::ChoosePresentMode (lines 164 to 185): scan the
supported list for VK_PRESENT_MODE_MAILBOX_KHR and return it when found;
otherwise log a warning and return available_present_modes[0], the first
element of the supported list. The empty list is guarded by a CHECK in the
source; the embedding is made total with headD. -/
def VulkanSwapchain.ChoosePresentMode (available_present_modes : List Int) : Int :=
  match available_present_modes.find? (fun m => m == VK_PRESENT_MODE_MAILBOX_KHR) with
  | some present_mode => present_mode
  | none => available_present_modes.headD VK_PRESENT_MODE_IMMEDIATE_KHR

/-- Embeds VulkanSwapchain::ChooseNumberOfImages (lines 212 to 229). uint32
addition wraps modulo 2 to the 32. -/
def VulkanSwapchain.ChooseNumberOfImages (minImageCount maxImageCount : Nat) : Nat :=
  let is_num_images_limited := maxImageCount > 0
  let desired_num_images := (minImageCount + 1) % 2 ^ 32
  if is_num_images_limited ∧ desired_num_images > maxImageCount then
    maxImageCount
  else
    desired_num_images

/-! Command-buffer state machine (VulkanCommandBuffer.cpp lines 63 to 102).

Release configuration: CHECK_MSG and VERIFY_VK_RESULT compile to no-ops
(VulkanMacros.h), so the early returns below are the whole release behavior.
The results of the underlying vkBeginCommandBuffer / vkEndCommandBuffer driver
calls are inputs of the embedding. -/

structure VulkanCommandBuffer where
  is_recording : Bool
  is_submitted : Bool
deriving DecidableEq

/-- A freshly allocated command buffer (member initializers of
VulkanCommandBuffer.h: both flags start false). -/
def VulkanCommandBuffer.allocated : VulkanCommandBuffer :=
  { is_recording := false, is_submitted := false }

/-- Embeds VulkanCommandBuffer::Begin. Returns the VkResult and the updated
object. -/
def VulkanCommandBuffer.Begin (cb : VulkanCommandBuffer) (vk_begin_result : Int) :
    Int × VulkanCommandBuffer :=
  if cb.is_recording then
    (VK_NOT_READY, cb)
  else if vk_begin_result ≠ VK_SUCCESS then
    (vk_begin_result, cb)
  else
    (VK_SUCCESS, { cb with is_recording := true })

/-- Embeds VulkanCommandBuffer::End. Note the source sets is_recording to
false after the driver call regardless of its result and returns that result. -/
def VulkanCommandBuffer.End (cb : VulkanCommandBuffer) (vk_end_result : Int) :
    Int × VulkanCommandBuffer :=
  if cb.is_recording = false then
    (VK_NOT_READY, cb)
  else
    (vk_end_result, { cb with is_recording := false })

/-! Frame synchronization model (Renderer.cpp).

The state carries exactly the members of VulkanRenderer that DrawFrame /
CreateSyncObjects read or write, abstracted as follows. A VkFence is
identified with the frame slot that owns it (inflight_frame_fences_ has one
fence per slot), so the fence handles stored in inflight_images_ become slot
indices. The fence status list holds true for signaled. GPU progress is an
input of each DrawFrame call: the set of previously submitted frames the GPU
has finished by the time the call waits. Uniform-buffer contents are opaque
payloads (the source writes model/view/projection float matrices; only which
buffer is written matters here, so the payload is a Nat supplied by the
environment). Submitted-but-not-fence-signaled frames are tracked in pending
as (frame id, slot) pairs; vkQueueSubmit appends one and a finished frame is
removed when its completion is consumed. -/

def MAX_FRAMES_IN_FLIGHT : Nat := 2

structure RendererState where
  current_frame : Nat
  /-- Per frame slot: fence status, true means signaled. -/
  inflight_frame_fences : List Bool
  /-- Per swapchain image: the slot whose fence was stored here, none for
  VK_NULL_HANDLE. -/
  inflight_images : List (Option Nat)
  /-- Per swapchain image: opaque payload last written into the mapped uniform
  buffer memory. -/
  uniform_buffers : List Nat
  was_frame_buffer_resized : Bool
  /-- GPU-pending submissions: (frame id, slot of the fence it will signal). -/
  pending : List (Nat × Nat)
  next_frame_id : Nat
deriving DecidableEq

/-- Environment of one DrawFrame call: what the GPU and the platform return. -/
structure DrawFrameEnv where
  /-- Frame ids the GPU has finished by the time the call waits on fences. -/
  completions : List Nat
  /-- VkResult of vkAcquireNextImageKHR. -/
  acquire_result : Int
  /-- Image index written by vkAcquireNextImageKHR. -/
  image_index : Nat
  /-- Payload UpdateUniformData computes for this frame. -/
  ubo : Nat
  /-- VkResult of vkQueueSubmit. -/
  submit_result : Int
  /-- VkResult of vkQueuePresentKHR. -/
  present_result : Int
deriving DecidableEq

/-- Observable effects of one DrawFrame call. Semaphore fields record the
index used into the named semaphore array; none means the call returned before
that use. -/
structure DrawFrameTrace where
  /-- Index into image_available_semaphores_ passed to vkAcquireNextImageKHR. -/
  acquire_sem_idx : Nat
  /-- Index into image_available_semaphores_ placed in pWaitSemaphores of the
  submit. -/
  submit_wait_sem_idx : Option Nat := none
  /-- Index into render_finished_semaphores_ placed in pSignalSemaphores. -/
  submit_signal_sem_idx : Option Nat := none
  /-- Index into render_finished_semaphores_ the present request waits on. -/
  present_wait_sem_idx : Option Nat := none
  /-- Index into command_buffers_ submitted. -/
  submit_cmd_buf_idx : Option Nat := none
  /-- Swapchain image indices whose uniform buffer was written. -/
  uniform_writes : List Nat := []
  /-- Swapchain image indices whose inflight_images_ entry was written. -/
  fence_ref_writes : List Nat := []
  recreate_called : Bool := false
  /-- A CHECK_NO_ENTRY assertion site was executed on this path. -/
  no_entry_hit : Bool := false
  /-- The call threw (std::runtime_error). -/
  threw : Bool := false
  /-- The call reached LOG_ERROR + exit(EXIT_FAILURE). -/
  exited : Bool := false
deriving DecidableEq

/-- Consume GPU completions: each finished pending frame is removed and its
slot fence becomes signaled. -/
def gpuComplete (s : RendererState) (done : List Nat) : RendererState :=
  let finished := s.pending.filter (fun pr => done.contains pr.1)
  { s with
    pending := s.pending.filter (fun pr => !(done.contains pr.1)),
    inflight_frame_fences :=
      finished.foldl (fun fences pr => fences.set pr.2 true) s.inflight_frame_fences }

/-- Embeds VulkanRenderer::RecreateSwapChain (Renderer.cpp lines 199 to 244):
the executable body is a single CHECK_NO_ENTRY() assertion; the whole
recreation sequence is commented out, so the function changes no state. -/
def VulkanRenderer.RecreateSwapChain (s : RendererState) : RendererState := s

/-- The fence create flags CreateSyncObjects uses (Renderer.cpp line 1544). -/
def syncObjectsFenceCreateFlags : Nat := VK_FENCE_CREATE_SIGNALED_BIT

/-- Embeds VulkanRenderer::CreateSyncObjects (lines 1532 to 1557): per-slot
semaphores and fences for MAX_FRAMES_IN_FLIGHT slots, fences created in the
state given by the signaled bit of the create flags, and inflight_images_
sized to the swapchain image count, all VK_NULL_HANDLE. -/
def VulkanRenderer.CreateSyncObjects (num_swapchain_images : Nat) : RendererState :=
  { current_frame := 0
    inflight_frame_fences :=
      List.replicate MAX_FRAMES_IN_FLIGHT (syncObjectsFenceCreateFlags.testBit 0)
    inflight_images := List.replicate num_swapchain_images none
    uniform_buffers := List.replicate num_swapchain_images 0
    was_frame_buffer_resized := false
    pending := []
    next_frame_id := 0 }

/-- Embeds VulkanRenderer::DrawFrame (Renderer.cpp lines 1409 to 1530),
following the source line by line. Returns none when the call cannot return
under this environment (a vkWaitForFences wait whose fence the supplied
completions never signal); otherwise the successor state and the trace of
effects. -/
def VulkanRenderer.DrawFrame (s : RendererState) (e : DrawFrameEnv) :
    Option (RendererState × DrawFrameTrace) :=
  -- vkWaitForFences(inflight_frame_fences_[current_frame_], ...): returns only
  -- once the GPU has signaled the fence of the current slot.
  let s0 := gpuComplete s e.completions
  if s0.inflight_frame_fences.getD s0.current_frame false = false then
    none
  else
    -- vkAcquireNextImageKHR(..., image_available_semaphores_[current_frame_], ...)
    let acquire_sem_idx := s0.current_frame
    if e.acquire_result = VK_ERROR_OUT_OF_DATE_KHR then
      -- CHECK_NO_ENTRY(); RecreateSwapChain(); return;
      some (VulkanRenderer.RecreateSwapChain s0,
        { acquire_sem_idx := acquire_sem_idx, recreate_called := true, no_entry_hit := true })
    else if e.acquire_result ≠ VK_SUCCESS ∧ e.acquire_result ≠ VK_SUBOPTIMAL_KHR then
      -- CHECK_NO_ENTRY(); throw std::runtime_error(...)
      some (s0, { acquire_sem_idx := acquire_sem_idx, no_entry_hit := true, threw := true })
    else
      -- if (inflight_images_[image_index] != VK_NULL_HANDLE) wait on that fence
      let hazard_fence_signaled :=
        match s0.inflight_images.getD e.image_index none with
        | none => true
        | some slot => s0.inflight_frame_fences.getD slot false
      if hazard_fence_signaled = false then
        none
      else
        -- inflight_images_[image_index] = inflight_frame_fences_[current_frame_];
        let s1 := { s0 with
          inflight_images := s0.inflight_images.set e.image_index (some s0.current_frame) }
        -- UpdateUniformData(image_index): map, memcpy, unmap of
        -- uniform_buffers_memory_[image_index]
        let s2 := { s1 with
          uniform_buffers := s1.uniform_buffers.set e.image_index e.ubo }
        -- vkResetFences(inflight_frame_fences_[current_frame_])
        let s3 := { s2 with
          inflight_frame_fences := s2.inflight_frame_fences.set s2.current_frame false }
        if e.submit_result ≠ VK_SUCCESS then
          -- throw std::runtime_error("Failed to submit draw command buffer!")
          some (s3,
            { acquire_sem_idx := acquire_sem_idx
              submit_wait_sem_idx := some s0.current_frame
              submit_signal_sem_idx := some s0.current_frame
              submit_cmd_buf_idx := some e.image_index
              uniform_writes := [e.image_index]
              fence_ref_writes := [e.image_index]
              threw := true })
        else
          -- vkQueueSubmit(..., inflight_frame_fences_[current_frame_]) succeeded
          let s4 := { s3 with
            pending := s3.pending ++ [(s3.next_frame_id, s3.current_frame)]
            next_frame_id := s3.next_frame_id + 1 }
          -- vkQueuePresentKHR waiting on render_finished_semaphores_[current_frame_]
          if e.present_result = VK_ERROR_OUT_OF_DATE_KHR ∨
             e.present_result = VK_SUBOPTIMAL_KHR ∨
             s4.was_frame_buffer_resized = true then
            -- CHECK_NO_ENTRY(); RecreateSwapChain(); was_frame_buffer_resized_ = false;
            let s5 := { VulkanRenderer.RecreateSwapChain s4 with
              was_frame_buffer_resized := false }
            some ({ s5 with current_frame := (s5.current_frame + 1) % MAX_FRAMES_IN_FLIGHT },
              { acquire_sem_idx := acquire_sem_idx
                submit_wait_sem_idx := some s0.current_frame
                submit_signal_sem_idx := some s0.current_frame
                present_wait_sem_idx := some s0.current_frame
                submit_cmd_buf_idx := some e.image_index
                uniform_writes := [e.image_index]
                fence_ref_writes := [e.image_index]
                recreate_called := true
                no_entry_hit := true })
          else if e.present_result ≠ VK_SUCCESS then
            -- CHECK_NO_ENTRY(); LOG_ERROR(...); exit(EXIT_FAILURE);
            some (s4,
              { acquire_sem_idx := acquire_sem_idx
                submit_wait_sem_idx := some s0.current_frame
                submit_signal_sem_idx := some s0.current_frame
                present_wait_sem_idx := some s0.current_frame
                submit_cmd_buf_idx := some e.image_index
                uniform_writes := [e.image_index]
                fence_ref_writes := [e.image_index]
                no_entry_hit := true
                exited := true })
          else
            -- current_frame_ = (++current_frame_) % MAX_FRAMES_IN_FLIGHT;
            some ({ s4 with current_frame := (s4.current_frame + 1) % MAX_FRAMES_IN_FLIGHT },
              { acquire_sem_idx := acquire_sem_idx
                submit_wait_sem_idx := some s0.current_frame
                submit_signal_sem_idx := some s0.current_frame
                present_wait_sem_idx := some s0.current_frame
                submit_cmd_buf_idx := some e.image_index
                uniform_writes := [e.image_index]
                fence_ref_writes := [e.image_index] })

/-- Successor state of one DrawFrame call; a call that can never return under
its environment (blocked wait) leaves the state as it was. -/
def drawFrameNextState (s : RendererState) (e : DrawFrameEnv) : RendererState :=
  match VulkanRenderer.DrawFrame s e with
  | some (next, _) => next
  | none => s

/-- Run a sequence of DrawFrame calls. -/
def runDrawFrames (s : RendererState) (envs : List DrawFrameEnv) : RendererState :=
  envs.foldl drawFrameNextState s

/-- Number of GPU-pending frames: submitted with a frame-slot fence the GPU
has not yet signaled. -/
def numPendingFrames (s : RendererState) : Nat := s.pending.length

/-- Synchronization invariant maintained by DrawFrame: the pending frames hold
pairwise distinct frame slots, every pending slot is a real slot whose fence
is unsignaled, and the per-slot fence list has one entry per slot. -/
def SyncInv (s : RendererState) : Prop :=
  s.current_frame < MAX_FRAMES_IN_FLIGHT ∧
  s.inflight_frame_fences.length = MAX_FRAMES_IN_FLIGHT ∧
  s.pending.Pairwise (fun a b => a.2 ≠ b.2) ∧
  ∀ pr ∈ s.pending,
    pr.2 < MAX_FRAMES_IN_FLIGHT ∧ s.inflight_frame_fences.getD pr.2 false = false

/-! Mesh loading (VulkanRenderer::LoadModel, Renderer.cpp lines 1142 to 1206).

Vertex carries the three attributes of Vertex.h (pos_ : glm::vec3,
color_ : glm::vec3, tex_coords_ : glm::vec2). Attribute values are abstracted
to arbitrary types with decidable equality; Vertex.h operator== compares the
three attributes componentwise, which vertexEq below mirrors (IEEE NaN, under
which float equality is not reflexive, is outside the model). The
unordered_map unique_vertices is an association list, and the nested loop over
all shapes and face corners is a fold over the flat list of vertices built
corner by corner in consumption order. -/

structure Vertex (P C T : Type) where
  pos : P
  color : C
  tex_coords : T
deriving DecidableEq

/-- Vertex.h operator== (lines 71 to 74): equality on all three attributes. -/
def vertexEq {P C T : Type} (a b : Vertex P C T) : Prop :=
  a.pos = b.pos ∧ a.color = b.color ∧ a.tex_coords = b.tex_coords

/-- Loop state of LoadModel: the dedup map and the two output arrays. -/
structure LoadModelState (P C T : Type) where
  unique_vertices : List (Vertex P C T × Nat)
  vertices : List (Vertex P C T)
  indices : List Nat

variable {P C T : Type} [DecidableEq P] [DecidableEq C] [DecidableEq T]

/-- unordered_map lookup: unique_vertices.count(vertex) and
unique_vertices[vertex] combined. -/
def lookupUnique (m : List (Vertex P C T × Nat)) (v : Vertex P C T) : Option Nat :=
  (m.find? (fun p => p.1 == v)).map (fun p => p.2)

/-- One iteration of the LoadModel corner loop: on a new vertex, record
vertices_.size() as its index, insert it into the map and push it; always push
its mapped index onto indices_. -/
def VulkanRenderer.LoadModelStep (st : LoadModelState P C T) (vertex : Vertex P C T) :
    LoadModelState P C T :=
  match lookupUnique st.unique_vertices vertex with
  | none =>
    let vertex_index := st.vertices.length
    { unique_vertices := (vertex, vertex_index) :: st.unique_vertices
      vertices := st.vertices ++ [vertex]
      indices := st.indices ++ [vertex_index] }
  | some idx =>
    { st with indices := st.indices ++ [idx] }

/-- Embeds VulkanRenderer::LoadModel from the dedup loop on: the input is the
list of vertices built from the face corners in consumption order, the output
the flat vertex list and the index list. -/
def VulkanRenderer.LoadModel (corners : List (Vertex P C T)) :
    List (Vertex P C T) × List Nat :=
  let final := corners.foldl VulkanRenderer.LoadModelStep
    { unique_vertices := [], vertices := [], indices := [] }
  (final.vertices, final.indices)

/-! Concrete inputs used by the witnesses: two frame slots, three swapchain
images, a frame that acquires image 2 while the frame slot index is 0. -/

def drawEnvNormal : DrawFrameEnv :=
  { completions := []
    acquire_result := VK_SUCCESS
    image_index := 2
    ubo := 5
    submit_result := VK_SUCCESS
    present_result := VK_SUCCESS }

def drawEnvStale : DrawFrameEnv :=
  { completions := []
    acquire_result := VK_ERROR_OUT_OF_DATE_KHR
    image_index := 0
    ubo := 0
    submit_result := VK_SUCCESS
    present_result := VK_SUCCESS }

def drawEnvPresentStale : DrawFrameEnv :=
  { completions := []
    acquire_result := VK_SUCCESS
    image_index := 1
    ubo := 7
    submit_result := VK_SUCCESS
    present_result := VK_SUBOPTIMAL_KHR }

def drawStateAfterNormal : RendererState :=
  { current_frame := 1
    inflight_frame_fences := [false, true]
    inflight_images := [none, none, some 0]
    uniform_buffers := [0, 0, 5]
    was_frame_buffer_resized := false
    pending := [(0, 0)]
    next_frame_id := 1 }

def drawTraceAfterNormal : DrawFrameTrace :=
  { acquire_sem_idx := 0
    submit_wait_sem_idx := some 0
    submit_signal_sem_idx := some 0
    present_wait_sem_idx := some 0
    submit_cmd_buf_idx := some 2
    uniform_writes := [2]
    fence_ref_writes := [2] }

/-! Helper lemmas about getD and set. -/

theorem getD_set_ne {α : Type} (l : List α) (a d : α) {i j : Nat} (h : i ≠ j) :
    (l.set i a).getD j d = l.getD j d := by
  simp [List.getD_eq_getElem?_getD, List.getElem?_set_ne h]

theorem getD_set_self {α : Type} (l : List α) (a d : α) {i : Nat} (h : i < l.length) :
    (l.set i a).getD i d = a := by
  simp [List.getD_eq_getElem?_getD, List.getElem?_set_eq_of_lt _ h]

/-! FindMemoryType lemmas (C3). -/

theorem FindMemoryTypeAux_some (memory_types : List Nat) (type_filter mem_properties : Nat) :
    ∀ i r : Nat, FindMemoryTypeAux memory_types type_filter mem_properties i = some r →
      i ≤ r ∧ r - i < memory_types.length ∧ type_filter.testBit r ∧
      (memory_types.getD (r - i) 0) &&& mem_properties = mem_properties ∧
      ∀ j, i ≤ j → j < r →
        ¬(type_filter.testBit j ∧ (memory_types.getD (j - i) 0) &&& mem_properties = mem_properties) := by
  induction memory_types with
  | nil => intro i r h; simp [FindMemoryTypeAux] at h
  | cons p rest ih =>
    intro i r h
    rw [FindMemoryTypeAux] at h
    by_cases hc : type_filter.testBit i ∧ (p &&& mem_properties) = mem_properties
    · rw [if_pos hc] at h
      obtain rfl : i = r := Option.some.inj h
      refine ⟨le_refl i, by simp, hc.1, by simpa using hc.2, ?_⟩
      intro j hij hji
      omega
    · rw [if_neg hc] at h
      obtain ⟨h1, h2, h3, h4, h5⟩ := ih (i + 1) r h
      refine ⟨by omega, by simp; omega, h3, ?_, ?_⟩
      · have : r - i = (r - (i + 1)) + 1 := by omega
        rw [this, List.getD_cons_succ]
        exact h4
      · intro j hij hjr
        rcases Nat.eq_or_lt_of_le hij with rfl | hlt
        · simpa using hc
        · have : j - i = (j - (i + 1)) + 1 := by omega
          rw [this, List.getD_cons_succ]
          exact h5 j (by omega) hjr

theorem FindMemoryTypeAux_none (memory_types : List Nat) (type_filter mem_properties : Nat) :
    ∀ i : Nat, FindMemoryTypeAux memory_types type_filter mem_properties i = none →
      ∀ j, j < memory_types.length →
        ¬(type_filter.testBit (i + j) ∧
          (memory_types.getD j 0) &&& mem_properties = mem_properties) := by
  induction memory_types with
  | nil => intro i _ j hj; simp at hj
  | cons p rest ih =>
    intro i h j hj
    rw [FindMemoryTypeAux] at h
    by_cases hc : type_filter.testBit i ∧ (p &&& mem_properties) = mem_properties
    · rw [if_pos hc] at h; exact absurd h (by simp)
    · rw [if_neg hc] at h
      cases j with
      | zero => simpa using hc
      | succ j =>
        have : i + (j + 1) = (i + 1) + j := by omega
        rw [this, List.getD_cons_succ]
        exact ih (i + 1) h j (by simpa using hj)

/-- C3: if some memory-type index has its bit set in the type filter and
property flags containing all required flags, FindMemoryType returns the
smallest such index (first match wins, no scoring); if no index qualifies, it
takes the fatal path, modelled as none, instead of returning an index. -/
theorem findMemoryType_first_match (memory_types : List Nat) (type_filter mem_properties : Nat) :
    ((∃ i, IsSuitableMemoryType memory_types type_filter mem_properties i) →
      ∃ r, VulkanMemory.FindMemoryType memory_types type_filter mem_properties = some r ∧
        IsSuitableMemoryType memory_types type_filter mem_properties r ∧
        ∀ j, j < r → ¬ IsSuitableMemoryType memory_types type_filter mem_properties j) ∧
    ((¬ ∃ i, IsSuitableMemoryType memory_types type_filter mem_properties i) →
      VulkanMemory.FindMemoryType memory_types type_filter mem_properties = none) := by
  constructor
  · rintro ⟨i, hi⟩
    cases h : VulkanMemory.FindMemoryType memory_types type_filter mem_properties with
    | none =>
      exfalso
      have := FindMemoryTypeAux_none memory_types type_filter mem_properties 0 h i hi.1
      simp only [Nat.zero_add] at this
      exact this ⟨hi.2.1, hi.2.2⟩
    | some r =>
      obtain ⟨_, hlen, hbit, hprop, hmin⟩ :=
        FindMemoryTypeAux_some memory_types type_filter mem_properties 0 r h
      simp only [Nat.sub_zero] at hlen hprop hmin
      refine ⟨r, rfl, ⟨hlen, hbit, hprop⟩, ?_⟩
      intro j hj hsj
      exact hmin j (Nat.zero_le j) hj ⟨hsj.2.1, hsj.2.2⟩
  · intro hno
    cases h : VulkanMemory.FindMemoryType memory_types type_filter mem_properties with
    | none => rfl
    | some r =>
      exfalso
      obtain ⟨_, hlen, hbit, hprop, _⟩ :=
        FindMemoryTypeAux_some memory_types type_filter mem_properties 0 r h
      simp only [Nat.sub_zero] at hlen hprop
      exact hno ⟨r, hlen, hbit, hprop⟩

/-- C3 witness: on the table [0, 3, 1] with filter 6 and required flags 1,
index 1 is the first match and is returned. -/
theorem findMemoryType_first_match_witness :
    VulkanMemory.FindMemoryType [0, 3, 1] 6 1 = some 1 ∧
    IsSuitableMemoryType [0, 3, 1] 6 1 1 ∧ ¬ IsSuitableMemoryType [0, 3, 1] 6 1 0 := by
  obtain ⟨r, hr, hs, hmin⟩ := (findMemoryType_first_match [0, 3, 1] 6 1).1 ⟨1, by decide⟩
  have hr1 : r = 1 := by
    have hv : VulkanMemory.FindMemoryType [0, 3, 1] 6 1 = some 1 := by decide
    rw [hv] at hr
    exact (Option.some.inj hr).symm
  subst hr1
  exact ⟨hr, hs, hmin 0 (by omega)⟩

/-- C4 counterexample: a supported list that lacks mailbox and whose first
element is the immediate mode makes ChoosePresentMode return the immediate
mode, not VK_PRESENT_MODE_FIFO_KHR as claimed. -/
theorem choosePresentMode_fallback_not_fifo :
    VulkanSwapchain.ChoosePresentMode [VK_PRESENT_MODE_IMMEDIATE_KHR] =
      VK_PRESENT_MODE_IMMEDIATE_KHR ∧
    VulkanSwapchain.ChoosePresentMode [VK_PRESENT_MODE_IMMEDIATE_KHR] ≠
      VK_PRESENT_MODE_FIFO_KHR := by
  constructor
  · decide
  · decide

/-- C4 amended: for every non-empty supported list, ChoosePresentMode returns
mailbox when it appears anywhere in the list, and otherwise returns the FIRST
element of the supported list (with a logged fallback warning), which is FIFO
only when FIFO happens to come first. -/
theorem choosePresentMode_mailbox_else_first (available_present_modes : List Int)
    (h : available_present_modes ≠ []) :
    (VK_PRESENT_MODE_MAILBOX_KHR ∈ available_present_modes →
      VulkanSwapchain.ChoosePresentMode available_present_modes =
        VK_PRESENT_MODE_MAILBOX_KHR) ∧
    (VK_PRESENT_MODE_MAILBOX_KHR ∉ available_present_modes →
      VulkanSwapchain.ChoosePresentMode available_present_modes =
        available_present_modes.head h) := by
  constructor
  · intro hmem
    unfold VulkanSwapchain.ChoosePresentMode
    cases hfind : available_present_modes.find? (fun m => m == VK_PRESENT_MODE_MAILBOX_KHR) with
    | some m =>
      have := List.find?_some hfind
      simp only [beq_iff_eq] at this
      simp [hfind, this]
    | none =>
      exfalso
      have := List.find?_eq_none.mp hfind _ hmem
      simp at this
  · intro hnot
    unfold VulkanSwapchain.ChoosePresentMode
    cases hfind : available_present_modes.find? (fun m => m == VK_PRESENT_MODE_MAILBOX_KHR) with
    | some m =>
      exfalso
      have hm := List.find?_some hfind
      have hmem := List.mem_of_find?_eq_some hfind
      simp only [beq_iff_eq] at hm
      subst hm
      exact hnot hmem
    | none =>
      cases available_present_modes with
      | nil => exact absurd rfl h
      | cons a l => simp [hfind]

/-- C4 witness for the amended claim: mailbox is picked when present; without
mailbox the first element is returned. -/
theorem choosePresentMode_mailbox_else_first_witness :
    VulkanSwapchain.ChoosePresentMode
      [VK_PRESENT_MODE_FIFO_KHR, VK_PRESENT_MODE_MAILBOX_KHR] =
      VK_PRESENT_MODE_MAILBOX_KHR ∧
    VulkanSwapchain.ChoosePresentMode
      [VK_PRESENT_MODE_FIFO_RELAXED_KHR, VK_PRESENT_MODE_FIFO_KHR] =
      VK_PRESENT_MODE_FIFO_RELAXED_KHR := by
  constructor
  · exact (choosePresentMode_mailbox_else_first
      [VK_PRESENT_MODE_FIFO_KHR, VK_PRESENT_MODE_MAILBOX_KHR] (by decide)).1 (by decide)
  · exact (choosePresentMode_mailbox_else_first
      [VK_PRESENT_MODE_FIFO_RELAXED_KHR, VK_PRESENT_MODE_FIFO_KHR] (by decide)).2 (by decide)

/-- C7: the requested swapchain image count is minImageCount + 1, capped to
maxImageCount exactly when maxImageCount > 0 and minImageCount + 1 exceeds it;
maxImageCount = 0 means unlimited and never caps. Stated for minImageCount + 1
within uint32 range (the addition in the source is uint32). -/
theorem chooseNumberOfImages_spec (minImageCount maxImageCount : Nat)
    (hmin : minImageCount + 1 < 2 ^ 32) :
    VulkanSwapchain.ChooseNumberOfImages minImageCount maxImageCount =
      if maxImageCount > 0 ∧ minImageCount + 1 > maxImageCount then maxImageCount
      else minImageCount + 1 := by
  unfold VulkanSwapchain.ChooseNumberOfImages
  rw [Nat.mod_eq_of_lt hmin]

/-- C7 witness: uncapped case 2 + 1 = 3 with unlimited max, capped case
3 + 1 capped to 3. -/
theorem chooseNumberOfImages_spec_witness :
    VulkanSwapchain.ChooseNumberOfImages 2 0 = 3 ∧
    VulkanSwapchain.ChooseNumberOfImages 3 3 = 3 := by
  constructor
  · have h := chooseNumberOfImages_spec 2 0 (by norm_num)
    simpa using h
  · have h := chooseNumberOfImages_spec 3 3 (by norm_num)
    simpa using h

/-- C6: the command-buffer state machine in release behavior. Begin while
already Recording returns VK_NOT_READY and leaves the object unchanged (no new
recording is started); End without a prior Begin returns VK_NOT_READY and
leaves the object unchanged; and when the driver calls succeed, the sequence
Begin, End, Begin from a freshly allocated buffer returns VK_SUCCESS at every
step (the buffer is reusable after a completed recording). -/
theorem commandBuffer_state_machine (cb : VulkanCommandBuffer) (r r1 r2 r3 : Int) :
    (cb.is_recording = true →
      (cb.Begin r).1 = VK_NOT_READY ∧ (cb.Begin r).2 = cb) ∧
    (cb.is_recording = false →
      (cb.End r).1 = VK_NOT_READY ∧ (cb.End r).2 = cb) ∧
    (r1 = VK_SUCCESS → r2 = VK_SUCCESS → r3 = VK_SUCCESS →
      (VulkanCommandBuffer.allocated.Begin r1).1 = VK_SUCCESS ∧
      ((VulkanCommandBuffer.allocated.Begin r1).2.End r2).1 = VK_SUCCESS ∧
      (((VulkanCommandBuffer.allocated.Begin r1).2.End r2).2.Begin r3).1 = VK_SUCCESS) := by
  refine ⟨?_, ?_, ?_⟩
  · intro hrec
    simp [VulkanCommandBuffer.Begin, hrec]
  · intro hrec
    simp [VulkanCommandBuffer.End, hrec]
  · rintro rfl rfl rfl
    decide

/-- C6 witness: concrete misuse and reuse runs. -/
theorem commandBuffer_state_machine_witness :
    (VulkanCommandBuffer.Begin { is_recording := true, is_submitted := false } VK_SUCCESS).1 =
      VK_NOT_READY ∧
    (VulkanCommandBuffer.End VulkanCommandBuffer.allocated VK_SUCCESS).1 = VK_NOT_READY ∧
    (((VulkanCommandBuffer.allocated.Begin VK_SUCCESS).2.End VK_SUCCESS).2.Begin VK_SUCCESS).1 =
      VK_SUCCESS := by
  refine ⟨((commandBuffer_state_machine { is_recording := true, is_submitted := false }
      VK_SUCCESS 0 0 0).1 rfl).1, ?_, ?_⟩
  · exact ((commandBuffer_state_machine VulkanCommandBuffer.allocated VK_SUCCESS 0 0 0).2.1 rfl).1
  · exact ((commandBuffer_state_machine VulkanCommandBuffer.allocated 0 VK_SUCCESS VK_SUCCESS
      VK_SUCCESS).2.2 rfl rfl rfl).2.2

/-! Synchronization lemmas (C1). -/

theorem foldl_set_true_length (ps : List (Nat × Nat)) (fences : List Bool) :
    (ps.foldl (fun f pr => f.set pr.2 true) fences).length = fences.length := by
  induction ps generalizing fences with
  | nil => rfl
  | cons p rest ih => rw [List.foldl_cons, ih, List.length_set]

theorem foldl_set_true_getD_ne (ps : List (Nat × Nat)) (fences : List Bool) (k : Nat)
    (h : ∀ c ∈ ps, c.2 ≠ k) :
    (ps.foldl (fun f pr => f.set pr.2 true) fences).getD k false = fences.getD k false := by
  induction ps generalizing fences with
  | nil => rfl
  | cons p rest ih =>
    rw [List.foldl_cons, ih _ (fun c hc => h c (List.mem_cons_of_mem _ hc)),
      getD_set_ne _ _ _ (h p (List.mem_cons_self _ _))]

theorem gpuComplete_inv (s : RendererState) (done : List Nat) (h : SyncInv s) :
    SyncInv (gpuComplete s done) := by
  obtain ⟨hcur, hlen, hpair, hmem⟩ := h
  refine ⟨hcur, ?_, ?_, ?_⟩
  · simp only [gpuComplete]
    rw [foldl_set_true_length]
    exact hlen
  · exact List.Pairwise.sublist (List.filter_sublist _) hpair
  · intro pr hpr
    have hpr0 : pr ∈ s.pending := List.mem_of_mem_filter hpr
    have hnotdone : done.contains pr.1 = false := by
      have := List.of_mem_filter hpr
      simpa using this
    refine ⟨(hmem pr hpr0).1, ?_⟩
    simp only [gpuComplete]
    rw [foldl_set_true_getD_ne]
    · exact (hmem pr hpr0).2
    · intro c hc heq
      have hcmem : c ∈ s.pending := List.mem_of_mem_filter hc
      have hcdone : done.contains c.1 = true := by simpa using List.of_mem_filter hc
      have hnodup : (s.pending.map Prod.snd).Nodup :=
        List.Pairwise.map Prod.snd (fun a b hab => hab) hpair
      have hceq : c = pr := List.inj_on_of_nodup_map hnodup hcmem hpr0 heq
      rw [hceq, hnotdone] at hcdone
      exact Bool.false_ne_true hcdone

theorem pending_slot_ne_current (s0 : RendererState) (hinv0 : SyncInv s0)
    (hwait : s0.inflight_frame_fences.getD s0.current_frame false = true) :
    ∀ pr ∈ s0.pending, pr.2 ≠ s0.current_frame := by
  intro pr hpr heq
  have hfence := (hinv0.2.2.2 pr hpr).2
  rw [heq] at hfence
  exact Bool.false_ne_true (hfence.symm.trans hwait)

theorem syncInv_after_body (s0 : RendererState) (img ub newcur nfid nfid2 : Nat)
    (resized : Bool) (pend2 : List (Nat × Nat))
    (hinv0 : SyncInv s0)
    (hwait : s0.inflight_frame_fences.getD s0.current_frame false = true)
    (hnew : newcur < MAX_FRAMES_IN_FLIGHT)
    (hpend : pend2 = s0.pending ∨ pend2 = s0.pending ++ [(nfid, s0.current_frame)]) :
    SyncInv
      { current_frame := newcur
        inflight_frame_fences := s0.inflight_frame_fences.set s0.current_frame false
        inflight_images := s0.inflight_images.set img (some s0.current_frame)
        uniform_buffers := s0.uniform_buffers.set img ub
        was_frame_buffer_resized := resized
        pending := pend2
        next_frame_id := nfid2 } := by
  obtain ⟨hcur, hlen, hpair, hmem⟩ := hinv0
  have hne := pending_slot_ne_current s0 ⟨hcur, hlen, hpair, hmem⟩ hwait
  refine ⟨hnew, ?_, ?_, ?_⟩
  · show (s0.inflight_frame_fences.set s0.current_frame false).length = _
    rw [List.length_set]
    exact hlen
  · show pend2.Pairwise _
    rcases hpend with rfl | rfl
    · exact hpair
    · rw [List.pairwise_append]
      refine ⟨hpair, List.pairwise_singleton _ _, ?_⟩
      intro a ha b hb
      rw [List.mem_singleton] at hb
      subst hb
      exact hne a ha
  · intro pr hpr
    rcases hpend with rfl | rfl
    · refine ⟨(hmem pr hpr).1, ?_⟩
      show (s0.inflight_frame_fences.set s0.current_frame false).getD pr.2 false = false
      rw [getD_set_ne _ _ _ (Ne.symm (hne pr hpr))]
      exact (hmem pr hpr).2
    · rw [List.mem_append] at hpr
      rcases hpr with hpr | hpr
      · refine ⟨(hmem pr hpr).1, ?_⟩
        show (s0.inflight_frame_fences.set s0.current_frame false).getD pr.2 false = false
        rw [getD_set_ne _ _ _ (Ne.symm (hne pr hpr))]
        exact (hmem pr hpr).2
      · rw [List.mem_singleton] at hpr
        subst hpr
        refine ⟨hcur, ?_⟩
        show (s0.inflight_frame_fences.set s0.current_frame false).getD s0.current_frame false = false
        exact getD_set_self _ _ _ (hlen ▸ hcur)

theorem drawFrame_preserves_inv (s : RendererState) (e : DrawFrameEnv)
    (s' : RendererState) (t : DrawFrameTrace) (hinv : SyncInv s)
    (h : VulkanRenderer.DrawFrame s e = some (s', t)) : SyncInv s' := by
  have hinv0 : SyncInv (gpuComplete s e.completions) := gpuComplete_inv s e.completions hinv
  rw [VulkanRenderer.DrawFrame] at h
  simp only [] at h
  split at h
  · exact absurd h (by simp)
  case isFalse hwait0 =>
  have hwait : (gpuComplete s e.completions).inflight_frame_fences.getD
      (gpuComplete s e.completions).current_frame false = true := by
    cases hb : (gpuComplete s e.completions).inflight_frame_fences.getD
        (gpuComplete s e.completions).current_frame false
    · exact absurd hb hwait0
    · rfl
  split at h
  · -- acquire out of date
    obtain ⟨rfl, -⟩ := Prod.mk.injEq .. ▸ Option.some.inj h
    exact hinv0
  split at h
  · -- acquire failure, throw
    obtain ⟨rfl, -⟩ := Prod.mk.injEq .. ▸ Option.some.inj h
    exact hinv0
  split at h
  · exact absurd h (by simp)
  split at h
  · -- submit failure, throw
    obtain ⟨rfl, -⟩ := Prod.mk.injEq .. ▸ Option.some.inj h
    exact syncInv_after_body _ e.image_index e.ubo _ 0 _ _ _ hinv0 hwait hinv0.1 (Or.inl rfl)
  split at h
  · -- present stale: recreate, advance
    obtain ⟨rfl, -⟩ := Prod.mk.injEq .. ▸ Option.some.inj h
    exact syncInv_after_body _ e.image_index e.ubo _ _ _ _ _ hinv0 hwait
      (Nat.mod_lt _ (by decide)) (Or.inr rfl)
  split at h
  · -- present failure, exit
    obtain ⟨rfl, -⟩ := Prod.mk.injEq .. ▸ Option.some.inj h
    exact syncInv_after_body _ e.image_index e.ubo _ _ _ _ _ hinv0 hwait hinv0.1 (Or.inr rfl)
  · -- normal completion
    obtain ⟨rfl, -⟩ := Prod.mk.injEq .. ▸ Option.some.inj h
    exact syncInv_after_body _ e.image_index e.ubo _ _ _ _ _ hinv0 hwait
      (Nat.mod_lt _ (by decide)) (Or.inr rfl)

theorem syncInv_init (num_swapchain_images : Nat) :
    SyncInv (VulkanRenderer.CreateSyncObjects num_swapchain_images) := by
  refine ⟨by simp [VulkanRenderer.CreateSyncObjects, MAX_FRAMES_IN_FLIGHT], ?_, ?_, ?_⟩
  · simp [VulkanRenderer.CreateSyncObjects, MAX_FRAMES_IN_FLIGHT]
  · simp [VulkanRenderer.CreateSyncObjects]
  · simp [VulkanRenderer.CreateSyncObjects]

theorem drawFrameNextState_inv (s : RendererState) (e : DrawFrameEnv) (h : SyncInv s) :
    SyncInv (drawFrameNextState s e) := by
  unfold drawFrameNextState
  cases hd : VulkanRenderer.DrawFrame s e with
  | none => exact h
  | some p =>
    cases p with
    | mk next tr => exact drawFrame_preserves_inv s e next tr h hd

theorem runDrawFrames_inv (envs : List DrawFrameEnv) (s : RendererState) (h : SyncInv s) :
    SyncInv (runDrawFrames s envs) := by
  induction envs generalizing s with
  | nil => exact h
  | cons e rest ih =>
    rw [runDrawFrames, List.foldl_cons]
    exact ih _ (drawFrameNextState_inv s e h)

theorem syncInv_pending_le (s : RendererState) (h : SyncInv s) :
    numPendingFrames s ≤ MAX_FRAMES_IN_FLIGHT := by
  obtain ⟨-, -, hpair, hmem⟩ := h
  have hnodup : (s.pending.map Prod.snd).Nodup :=
    List.Pairwise.map Prod.snd (fun a b hab => hab) hpair
  have hsub : (s.pending.map Prod.snd).toFinset ⊆ Finset.range MAX_FRAMES_IN_FLIGHT := by
    intro x hx
    rw [List.mem_toFinset] at hx
    obtain ⟨pr, hpr, rfl⟩ := List.mem_map.mp hx
    exact Finset.mem_range.mpr (hmem pr hpr).1
  calc numPendingFrames s = (s.pending.map Prod.snd).length := (List.length_map _ _).symm
    _ = (s.pending.map Prod.snd).toFinset.card := (List.toFinset_card_of_nodup hnodup).symm
    _ ≤ (Finset.range MAX_FRAMES_IN_FLIGHT).card := Finset.card_le_card hsub
    _ = MAX_FRAMES_IN_FLIGHT := Finset.card_range _

/-- C1: starting from CreateSyncObjects, across any number of consecutive
DrawFrame calls under any environments, after every prefix of the run the
number of GPU-pending frames (submitted with a frame-slot fence the GPU has
not yet signaled) never exceeds MAX_FRAMES_IN_FLIGHT: DrawFrame blocks on the
fence of the current frame slot before resetting it and submitting again, so
the pending frames always occupy pairwise distinct frame slots. -/
theorem drawFrame_inflight_bounded (num_swapchain_images k : Nat)
    (envs : List DrawFrameEnv) :
    numPendingFrames
      (runDrawFrames (VulkanRenderer.CreateSyncObjects num_swapchain_images) (envs.take k)) ≤
      MAX_FRAMES_IN_FLIGHT :=
  syncInv_pending_le _ (runDrawFrames_inv _ _ (syncInv_init _))

/-- C2: in every DrawFrame call, the semaphore passed to acquire, the submit
wait semaphore, the submit signal semaphore, and the present wait semaphore
are all selected by the frame-slot index current_frame_, while the uniform
buffer written and the in-flight-fence-reference entry updated are selected by
the swapchain image index returned by acquire; whenever the submit is reached,
exactly the acquired image index is written in both. -/
theorem drawFrame_index_separation (s : RendererState) (e : DrawFrameEnv)
    (s' : RendererState) (t : DrawFrameTrace)
    (h : VulkanRenderer.DrawFrame s e = some (s', t)) :
    t.acquire_sem_idx = s.current_frame ∧
    (∀ i, t.submit_wait_sem_idx = some i → i = s.current_frame) ∧
    (∀ i, t.submit_signal_sem_idx = some i → i = s.current_frame) ∧
    (∀ i, t.present_wait_sem_idx = some i → i = s.current_frame) ∧
    (∀ j, j ∈ t.uniform_writes → j = e.image_index) ∧
    (∀ j, j ∈ t.fence_ref_writes → j = e.image_index) ∧
    (t.submit_wait_sem_idx.isSome = true →
      t.uniform_writes = [e.image_index] ∧ t.fence_ref_writes = [e.image_index]) := by
  rw [VulkanRenderer.DrawFrame] at h
  simp only [] at h
  split at h
  · exact absurd h (by simp)
  split at h
  · obtain ⟨rfl, rfl⟩ := Prod.mk.injEq .. ▸ Option.some.inj h
    refine ⟨rfl, ?_, ?_, ?_, ?_, ?_, ?_⟩ <;> simp [gpuComplete]
  split at h
  · obtain ⟨rfl, rfl⟩ := Prod.mk.injEq .. ▸ Option.some.inj h
    refine ⟨rfl, ?_, ?_, ?_, ?_, ?_, ?_⟩ <;> simp [gpuComplete]
  split at h
  · exact absurd h (by simp)
  split at h
  · obtain ⟨rfl, rfl⟩ := Prod.mk.injEq .. ▸ Option.some.inj h
    refine ⟨rfl, ?_, ?_, ?_, ?_, ?_, ?_⟩ <;> simp [gpuComplete]
  split at h
  · obtain ⟨rfl, rfl⟩ := Prod.mk.injEq .. ▸ Option.some.inj h
    refine ⟨rfl, ?_, ?_, ?_, ?_, ?_, ?_⟩ <;> simp [gpuComplete]
  split at h
  · obtain ⟨rfl, rfl⟩ := Prod.mk.injEq .. ▸ Option.some.inj h
    refine ⟨rfl, ?_, ?_, ?_, ?_, ?_, ?_⟩ <;> simp [gpuComplete]
  · obtain ⟨rfl, rfl⟩ := Prod.mk.injEq .. ▸ Option.some.inj h
    refine ⟨rfl, ?_, ?_, ?_, ?_, ?_, ?_⟩ <;> simp [gpuComplete]

/-- C2 witness: with 2 frame slots and 3 swapchain images, a call in frame
slot 0 that acquires image 2 uses semaphore index 0 and writes uniform buffer
and fence reference 2; the two indices legitimately differ in one call. -/
theorem drawFrame_index_separation_witness :
    VulkanRenderer.DrawFrame (VulkanRenderer.CreateSyncObjects 3) drawEnvNormal =
      some (drawStateAfterNormal, drawTraceAfterNormal) ∧
    drawTraceAfterNormal.acquire_sem_idx =
      (VulkanRenderer.CreateSyncObjects 3).current_frame ∧
    drawTraceAfterNormal.uniform_writes = [drawEnvNormal.image_index] ∧
    drawTraceAfterNormal.fence_ref_writes = [drawEnvNormal.image_index] ∧
    drawEnvNormal.image_index ≠ (VulkanRenderer.CreateSyncObjects 3).current_frame := by
  have h : VulkanRenderer.DrawFrame (VulkanRenderer.CreateSyncObjects 3) drawEnvNormal =
      some (drawStateAfterNormal, drawTraceAfterNormal) := by decide
  have hsep := drawFrame_index_separation (VulkanRenderer.CreateSyncObjects 3) drawEnvNormal
    drawStateAfterNormal drawTraceAfterNormal h
  exact ⟨h, hsep.1, (hsep.2.2.2.2.2.2 (by decide)).1, (hsep.2.2.2.2.2.2 (by decide)).2,
    by decide⟩

/-- C10: a DrawFrame call that acquires image index k writes only the uniform
buffer at index k and only the in-flight-fence-reference entry at index k; all
entries at other indices are left unchanged by the call. -/
theorem drawFrame_uniform_write_isolated (s : RendererState) (e : DrawFrameEnv)
    (s' : RendererState) (t : DrawFrameTrace)
    (h : VulkanRenderer.DrawFrame s e = some (s', t)) :
    (∀ j, j ≠ e.image_index →
      s'.uniform_buffers.getD j 0 = s.uniform_buffers.getD j 0) ∧
    (∀ j, j ≠ e.image_index →
      s'.inflight_images.getD j none = s.inflight_images.getD j none) ∧
    (t.uniform_writes = [] ∨ t.uniform_writes = [e.image_index]) := by
  rw [VulkanRenderer.DrawFrame] at h
  simp only [] at h
  split at h
  · exact absurd h (by simp)
  split at h
  · obtain ⟨rfl, rfl⟩ := Prod.mk.injEq .. ▸ Option.some.inj h
    exact ⟨fun j _ => rfl, fun j _ => rfl, Or.inl rfl⟩
  split at h
  · obtain ⟨rfl, rfl⟩ := Prod.mk.injEq .. ▸ Option.some.inj h
    exact ⟨fun j _ => rfl, fun j _ => rfl, Or.inl rfl⟩
  split at h
  · exact absurd h (by simp)
  split at h
  · obtain ⟨rfl, rfl⟩ := Prod.mk.injEq .. ▸ Option.some.inj h
    exact ⟨fun j hj => getD_set_ne _ _ _ (Ne.symm hj),
      fun j hj => getD_set_ne _ _ _ (Ne.symm hj), Or.inr rfl⟩
  split at h
  · obtain ⟨rfl, rfl⟩ := Prod.mk.injEq .. ▸ Option.some.inj h
    exact ⟨fun j hj => getD_set_ne _ _ _ (Ne.symm hj),
      fun j hj => getD_set_ne _ _ _ (Ne.symm hj), Or.inr rfl⟩
  split at h
  · obtain ⟨rfl, rfl⟩ := Prod.mk.injEq .. ▸ Option.some.inj h
    exact ⟨fun j hj => getD_set_ne _ _ _ (Ne.symm hj),
      fun j hj => getD_set_ne _ _ _ (Ne.symm hj), Or.inr rfl⟩
  · obtain ⟨rfl, rfl⟩ := Prod.mk.injEq .. ▸ Option.some.inj h
    exact ⟨fun j hj => getD_set_ne _ _ _ (Ne.symm hj),
      fun j hj => getD_set_ne _ _ _ (Ne.symm hj), Or.inr rfl⟩

/-- C10 witness: the call of drawEnvNormal acquires image 2 and leaves uniform
buffer 0 and fence reference 1 unchanged. -/
theorem drawFrame_uniform_write_isolated_witness :
    drawStateAfterNormal.uniform_buffers.getD 0 0 =
      (VulkanRenderer.CreateSyncObjects 3).uniform_buffers.getD 0 0 ∧
    drawStateAfterNormal.inflight_images.getD 1 none =
      (VulkanRenderer.CreateSyncObjects 3).inflight_images.getD 1 none := by
  have h : VulkanRenderer.DrawFrame (VulkanRenderer.CreateSyncObjects 3) drawEnvNormal =
      some (drawStateAfterNormal, drawTraceAfterNormal) := by decide
  have hiso := drawFrame_uniform_write_isolated (VulkanRenderer.CreateSyncObjects 3)
    drawEnvNormal drawStateAfterNormal drawTraceAfterNormal h
  exact ⟨hiso.1 0 (by decide), hiso.2.1 1 (by decide)⟩

/-- C9: CreateSyncObjects creates every frame-slot fence with the signaled
create flag set, so every fence starts signaled, the very first DrawFrame call
passes its step-1 fence wait without any GPU completion, and after any first
call that neither throws nor exits, the next slot to be used also still has a
signaled fence, so its first DrawFrame call passes the step-1 wait too. -/
theorem createSyncObjects_signaled (num_swapchain_images : Nat) (e : DrawFrameEnv)
    (s' : RendererState) (t : DrawFrameTrace) :
    syncObjectsFenceCreateFlags.testBit 0 = true ∧
    (VulkanRenderer.CreateSyncObjects num_swapchain_images).inflight_frame_fences =
      List.replicate MAX_FRAMES_IN_FLIGHT true ∧
    (VulkanRenderer.CreateSyncObjects num_swapchain_images).inflight_frame_fences.getD
      (VulkanRenderer.CreateSyncObjects num_swapchain_images).current_frame false = true ∧
    (VulkanRenderer.DrawFrame (VulkanRenderer.CreateSyncObjects num_swapchain_images) e =
        some (s', t) →
      t.threw = false → t.exited = false →
      s'.inflight_frame_fences.getD s'.current_frame false = true) := by
  refine ⟨by decide, ?_, ?_, ?_⟩
  · show List.replicate MAX_FRAMES_IN_FLIGHT (syncObjectsFenceCreateFlags.testBit 0) =
      List.replicate MAX_FRAMES_IN_FLIGHT true
    decide
  · show (List.replicate MAX_FRAMES_IN_FLIGHT (syncObjectsFenceCreateFlags.testBit 0)).getD
      0 false = true
    decide
  · intro h ht hex
    rw [VulkanRenderer.DrawFrame] at h
    simp only [] at h
    split at h
    · exact absurd h (by simp)
    split at h
    · obtain ⟨rfl, rfl⟩ := Prod.mk.injEq .. ▸ Option.some.inj h
      show (List.replicate MAX_FRAMES_IN_FLIGHT (syncObjectsFenceCreateFlags.testBit 0)).getD
        0 false = true
      decide
    split at h
    · obtain ⟨rfl, rfl⟩ := Prod.mk.injEq .. ▸ Option.some.inj h
      simp at ht
    split at h
    · exact absurd h (by simp)
    split at h
    · obtain ⟨rfl, rfl⟩ := Prod.mk.injEq .. ▸ Option.some.inj h
      simp at ht
    split at h
    · obtain ⟨rfl, rfl⟩ := Prod.mk.injEq .. ▸ Option.some.inj h
      show ((List.replicate MAX_FRAMES_IN_FLIGHT (syncObjectsFenceCreateFlags.testBit 0)).set
        0 false).getD ((0 + 1) % MAX_FRAMES_IN_FLIGHT) false = true
      decide
    split at h
    · obtain ⟨rfl, rfl⟩ := Prod.mk.injEq .. ▸ Option.some.inj h
      simp at hex
    · obtain ⟨rfl, rfl⟩ := Prod.mk.injEq .. ▸ Option.some.inj h
      show ((List.replicate MAX_FRAMES_IN_FLIGHT (syncObjectsFenceCreateFlags.testBit 0)).set
        0 false).getD ((0 + 1) % MAX_FRAMES_IN_FLIGHT) false = true
      decide

/-- C9 witness: after the first call the fence of the next slot is still
signaled. -/
theorem createSyncObjects_signaled_witness :
    drawStateAfterNormal.inflight_frame_fences.getD
      drawStateAfterNormal.current_frame false = true := by
  have h : VulkanRenderer.DrawFrame (VulkanRenderer.CreateSyncObjects 3) drawEnvNormal =
      some (drawStateAfterNormal, drawTraceAfterNormal) := by decide
  exact (createSyncObjects_signaled 3 drawEnvNormal drawStateAfterNormal
    drawTraceAfterNormal).2.2.2 h (by decide) (by decide)

/-- C5: the staleness paths of DrawFrame are stubs that execute a
CHECK_NO_ENTRY assertion site. RecreateSwapChain changes no state (its whole
recreation sequence is commented out), and a call whose acquire reports
out-of-date returns with the no-entry assertion executed, RecreateSwapChain
called, and the state unchanged; a call whose present reports suboptimal also
executes the assertion site and the stub recreation. -/
theorem drawFrame_stale_acquire_hits_stub :
    (∀ st : RendererState, VulkanRenderer.RecreateSwapChain st = st) ∧
    VulkanRenderer.DrawFrame (VulkanRenderer.CreateSyncObjects 3) drawEnvStale =
      some (VulkanRenderer.CreateSyncObjects 3,
        { acquire_sem_idx := 0, recreate_called := true, no_entry_hit := true }) ∧
    (VulkanRenderer.DrawFrame (VulkanRenderer.CreateSyncObjects 3) drawEnvPresentStale).map
      (fun r => (r.2.recreate_called, r.2.no_entry_hit, r.2.exited, r.2.threw)) =
      some (true, true, false, false) :=
  ⟨fun _ => rfl, by decide, by decide⟩

/-! LoadModel lemmas (C8). -/

theorem vertexEq_iff (a b : Vertex P C T) : vertexEq a b ↔ a = b := by
  constructor
  · rintro ⟨h1, h2, h3⟩
    cases a
    cases b
    simp only [Vertex.mk.injEq]
    exact ⟨h1, h2, h3⟩
  · rintro rfl
    exact ⟨rfl, rfl, rfl⟩

theorem lookupUnique_eq_none (m : List (Vertex P C T × Nat)) (v : Vertex P C T)
    (h : lookupUnique m v = none) : ∀ p ∈ m, p.1 ≠ v := by
  intro p hp heq
  unfold lookupUnique at h
  cases hf : m.find? (fun p => p.1 == v) with
  | some q => rw [hf] at h; simp at h
  | none =>
    have := List.find?_eq_none.mp hf p hp
    simp [heq] at this

theorem lookupUnique_eq_some (m : List (Vertex P C T × Nat)) (v : Vertex P C T)
    (idx : Nat) (h : lookupUnique m v = some idx) :
    ∃ p, p ∈ m ∧ p.1 = v ∧ p.2 = idx := by
  unfold lookupUnique at h
  cases hf : m.find? (fun p => p.1 == v) with
  | none => rw [hf] at h; simp at h
  | some q =>
    rw [hf] at h
    simp at h
    have hq := List.find?_some hf
    have hmem := List.mem_of_find?_eq_some hf
    simp only [beq_iff_eq] at hq
    exact ⟨q, hmem, hq, h⟩

/-- Loop invariant of the LoadModel dedup loop over the processed corners. -/
def LoadInv (done : List (Vertex P C T)) (st : LoadModelState P C T) : Prop :=
  st.vertices.Nodup ∧
  st.indices.length = done.length ∧
  (∀ p ∈ st.unique_vertices, st.vertices.get? p.2 = some p.1) ∧
  (∀ v ∈ st.vertices, ∃ p, p ∈ st.unique_vertices ∧ p.1 = v) ∧
  (∀ k, k < done.length →
    ∃ j, st.indices.get? k = some j ∧ st.vertices.get? j = done.get? k)

theorem loadInv_step (done : List (Vertex P C T)) (st : LoadModelState P C T)
    (v : Vertex P C T) (h : LoadInv done st) :
    LoadInv (done ++ [v]) (VulkanRenderer.LoadModelStep st v) := by
  obtain ⟨hnd, hlen, hmap, hcomp, hidx⟩ := h
  unfold VulkanRenderer.LoadModelStep
  cases hl : lookupUnique st.unique_vertices v with
  | some idx =>
    obtain ⟨p, hpmem, hp1, hp2⟩ := lookupUnique_eq_some _ _ _ hl
    refine ⟨hnd, by simp [hlen], hmap, hcomp, ?_⟩
    intro k hk
    rw [List.length_append, List.length_singleton] at hk
    by_cases hk2 : k < done.length
    · obtain ⟨j, hj1, hj2⟩ := hidx k hk2
      refine ⟨j, ?_, ?_⟩
      · rw [List.get?_append (hlen ▸ hk2)]
        exact hj1
      · rw [List.get?_append hk2]
        exact hj2
    · have hkeq : k = done.length := by omega
      subst hkeq
      refine ⟨idx, ?_, ?_⟩
      · rw [← hlen]
        exact List.get?_concat_length _ _
      · rw [List.get?_concat_length]
        exact hp2 ▸ hp1 ▸ hmap p hpmem
  | none =>
    have hnot := lookupUnique_eq_none _ _ hl
    have hvnot : v ∉ st.vertices := by
      intro hv
      obtain ⟨p, hpmem, hp1⟩ := hcomp v hv
      exact hnot p hpmem hp1
    refine ⟨?_, by simp [hlen], ?_, ?_, ?_⟩
    · rw [List.nodup_append]
      exact ⟨hnd, List.nodup_singleton v, by simpa using hvnot⟩
    · intro p hp
      rcases List.mem_cons.mp hp with rfl | hp
      · exact List.get?_concat_length _ _
      · have hold := hmap p hp
        have hlt : p.2 < st.vertices.length := by
          rcases Nat.lt_or_ge p.2 st.vertices.length with hlt | hge
          · exact hlt
          · rw [List.get?_eq_none.mpr hge] at hold
            exact absurd hold (by simp)
        rw [List.get?_append hlt]
        exact hold
    · intro w hw
      rcases List.mem_append.mp hw with hw | hw
      · obtain ⟨p, hpmem, hp1⟩ := hcomp w hw
        exact ⟨p, List.mem_cons_of_mem _ hpmem, hp1⟩
      · rw [List.mem_singleton] at hw
        subst hw
        exact ⟨(w, st.vertices.length), List.mem_cons_self _ _, rfl⟩
    · intro k hk
      rw [List.length_append, List.length_singleton] at hk
      by_cases hk2 : k < done.length
      · obtain ⟨j, hj1, hj2⟩ := hidx k hk2
        have hjlt : j < st.vertices.length := by
          rcases Nat.lt_or_ge j st.vertices.length with hlt | hge
          · exact hlt
          · exfalso
            rw [List.get?_eq_none.mpr hge, List.get?_eq_get hk2] at hj2
            exact Option.noConfusion hj2
        refine ⟨j, ?_, ?_⟩
        · rw [List.get?_append (hlen ▸ hk2)]
          exact hj1
        · rw [List.get?_append hjlt, List.get?_append hk2]
          exact hj2
      · have hkeq : k = done.length := by omega
        subst hkeq
        refine ⟨st.vertices.length, ?_, ?_⟩
        · rw [← hlen]
          exact List.get?_concat_length _ _
        · rw [List.get?_concat_length, List.get?_concat_length]

theorem loadInv_foldl (rest : List (Vertex P C T)) (done : List (Vertex P C T))
    (st : LoadModelState P C T) (h : LoadInv done st) :
    LoadInv (done ++ rest) (rest.foldl VulkanRenderer.LoadModelStep st) := by
  induction rest generalizing done st with
  | nil => simpa using h
  | cons v vs ih =>
    rw [List.foldl_cons]
    have := ih (done ++ [v]) _ (loadInv_step done st v h)
    simpa [List.append_assoc] using this

/-- C8: the flat vertex list LoadModel produces contains no two vertices equal
on all three attributes, the index list has one entry per consumed face
corner, and each index entry refers to the vertex-list element equal on all
three attributes to the vertex built from that corner. -/
theorem loadModel_dedup (corners : List (Vertex P C T)) :
    (VulkanRenderer.LoadModel corners).1.Pairwise (fun a b => ¬ vertexEq a b) ∧
    (VulkanRenderer.LoadModel corners).2.length = corners.length ∧
    ∀ k, k < corners.length →
      ∃ j w u, (VulkanRenderer.LoadModel corners).2.get? k = some j ∧
        (VulkanRenderer.LoadModel corners).1.get? j = some w ∧
        corners.get? k = some u ∧ vertexEq w u := by
  have hinit : LoadInv ([] : List (Vertex P C T))
      { unique_vertices := [], vertices := [], indices := [] } := by
    refine ⟨List.nodup_nil, rfl, ?_, ?_, ?_⟩ <;> simp
  have h := loadInv_foldl corners [] _ hinit
  rw [List.nil_append] at h
  obtain ⟨hnd, hlen, -, -, hidx⟩ := h
  refine ⟨?_, hlen, ?_⟩
  · exact hnd.imp (fun hne hveq => hne ((vertexEq_iff _ _).mp hveq))
  · intro k hk
    obtain ⟨j, hj1, hj2⟩ := hidx k hk
    rw [List.get?_eq_get hk] at hj2
    exact ⟨j, _, _, hj1, hj2, (List.get?_eq_get hk), (vertexEq_iff _ _).mpr rfl⟩

/-- C8 witness: three corners with one duplicate produce two unique vertices
and the index list [0, 1, 0]. -/
theorem loadModel_dedup_witness :
    (VulkanRenderer.LoadModel
      [(⟨0, 0, 0⟩ : Vertex Nat Nat Nat), ⟨1, 0, 0⟩, ⟨0, 0, 0⟩]).1 =
      [⟨0, 0, 0⟩, ⟨1, 0, 0⟩] ∧
    (VulkanRenderer.LoadModel
      [(⟨0, 0, 0⟩ : Vertex Nat Nat Nat), ⟨1, 0, 0⟩, ⟨0, 0, 0⟩]).2 = [0, 1, 0] ∧
    (VulkanRenderer.LoadModel
      [(⟨0, 0, 0⟩ : Vertex Nat Nat Nat), ⟨1, 0, 0⟩, ⟨0, 0, 0⟩]).1.Pairwise
      (fun a b => ¬ vertexEq a b) := by
  refine ⟨by decide, by decide, ?_⟩
  exact (loadModel_dedup [(⟨0, 0, 0⟩ : Vertex Nat Nat Nat), ⟨1, 0, 0⟩, ⟨0, 0, 0⟩]).1
